import Mathlib

/-!
Shallow embedding of the weather-impact-app data pipeline
(`src/weather_fetcher.py` and `src/weather_processing.py`).

Modelling conventions:
* machine floats are modelled as `ℚ`;
* a pandas cell is a `Cell`: a numeric value, a string that parses as a
  number, a string that does not, or a missing value (`NaN`);
* dates are day ordinals (`Nat`); a missing/unparsable date (`NaT`) is `none`;
* network traffic is an environment function from the 1-based attempt
  number to that attempt's outcome (a network-level exception or an HTTP
  response); the JSON body is abstracted to a `String`, with `none` for a
  body on which `.json()` raises;
* `time.sleep` is recorded in a trace of wait durations instead of
  blocking; `logging` calls are ignored (no observable effect modelled).
-/

namespace WeatherImpact

/-- An HTTP response: status code plus the parsed JSON body (`none` when
`response.json()` would raise a decode error). -/
structure Response where
  status : Nat
  jsonBody : Option String
deriving DecidableEq, Repr

/-- Outcome of one `requests.get` call: a network-level exception
(timeout, connection failure) or a response. -/
inductive AttemptOutcome
  | netErr (msg : String)
  | resp (r : Response)
deriving DecidableEq, Repr

/-- The exceptions one attempt of the retry loop can raise internally. -/
inductive FetchExc
  /-- the `requests.HTTPError` raised explicitly for `{429, 500, 502, 503, 504}` -/
  | tempHTTP (status : Nat)
  /-- the error raised by `response.raise_for_status()` for other 4xx/5xx -/
  | httpStatus (status : Nat)
  /-- `response.json()` failed to decode -/
  | jsonError
  /-- network-level exception from `requests.get` -/
  | network (msg : String)
deriving DecidableEq, Repr

deriving instance DecidableEq for Except

/-- Result of a whole `_get_json_with_retries` call: the returned JSON or
the terminal `RuntimeError` (carrying the `retries` count it reports and
`last_exc`, the cause it is raised `from`), together with how many
attempts were made and the trace of back-off waits, in order. -/
structure FetchOutcome where
  result : Except (Nat × Option FetchExc) String
  attemptsMade : Nat
  waits : List ℚ
deriving DecidableEq, Repr

/-- The status codes treated as temporary in `_get_json_with_retries`. -/
def transientStatuses : List Nat := [429, 500, 502, 503, 504]

/-- One iteration of the `try:` block of `_get_json_with_retries`:
returns the JSON on success, or the exception the iteration raises. -/
def attemptOnce : AttemptOutcome → Except FetchExc String
  | .netErr m => .error (.network m)
  | .resp r =>
      if r.status ∈ transientStatuses then .error (.tempHTTP r.status)
      else if 400 ≤ r.status ∧ r.status < 600 then .error (.httpStatus r.status)
      else
        match r.jsonBody with
        | some j => .ok j
        | none => .error .jsonError

/-- The `for attempt in range(1, retries + 1)` loop of
`_get_json_with_retries`, over the remaining attempt numbers. Every
exception is caught, recorded as `last_exc`, and followed by a
`backoff_factor ** attempt` sleep — also after the final attempt, as in
the source. When the attempt list is exhausted the terminal
`RuntimeError` wraps `last_exc`. -/
def fetchLoop (env : Nat → AttemptOutcome) (backoff_factor : ℚ) (retries : Nat) :
    List Nat → Option FetchExc → FetchOutcome
  | [], last_exc => ⟨.error (retries, last_exc), 0, []⟩
  | attempt :: rest, _ =>
      match attemptOnce (env attempt) with
      | .ok j => ⟨.ok j, 1, []⟩
      | .error exc =>
          let o := fetchLoop env backoff_factor retries rest (some exc)
          ⟨o.result, o.attemptsMade + 1, backoff_factor ^ attempt :: o.waits⟩

/-- `_get_json_with_retries(url, params, timeout_s, retries, backoff_factor)`:
attempts are numbered `1, …, retries`. -/
def get_json_with_retries (env : Nat → AttemptOutcome) (retries : Nat)
    (backoff_factor : ℚ) : FetchOutcome :=
  fetchLoop env backoff_factor retries (List.range' 1 retries) none

/-- One pandas cell as read from / stored into a DataFrame column. -/
inductive Cell
  /-- a numeric value -/
  | num (q : ℚ)
  /-- a string that `pd.to_numeric` parses as the number `q` -/
  | strNum (q : ℚ)
  /-- a string on which `pd.to_numeric` fails to parse a number -/
  | strBad (s : String)
  /-- a missing value (`NaN`) -/
  | na
deriving DecidableEq, Repr

/-- `pd.to_numeric(col, errors="coerce")` on one cell: numeric values kept,
parsable strings converted, everything else coerced to `NaN`. -/
def to_numeric : Cell → Cell
  | .num q => .num q
  | .strNum q => .num q
  | .strBad _ => .na
  | .na => .na

/-- Pandas `+` on (already coerced) cells: `NaN` propagates. -/
def Cell.add : Cell → Cell → Cell
  | .num a, .num b => .num (a + b)
  | _, _ => .na

/-- Pandas `/ 2` on an (already coerced) cell: `NaN` propagates. -/
def Cell.half : Cell → Cell
  | .num a => .num (a / 2)
  | _ => .na

/-- Pandas `col >= t` on an (already coerced) cell: comparison with `NaN`
yields `False`, so the resulting column is boolean, never missing. -/
def Cell.geB (c : Cell) (t : ℚ) : Bool :=
  match c with
  | .num a => decide (t ≤ a)
  | _ => false

/-- One row of the raw dataset (header
`date, t_max, t_min, precipitation, wind_max, city`). `date` is `none`
for `NaT`, `city` is `none` for a missing city. -/
structure RawRow where
  date : Option Nat
  t_max : Cell
  t_min : Cell
  precipitation : Cell
  wind_max : Cell
  city : Option String
deriving DecidableEq, Repr

/-- The fixed registry of the six PACA cities with their literal
coordinates, in the source's insertion/iteration order. -/
def PACA_CITIES : List (String × ℚ × ℚ) :=
  [("Marseille", 43.2965, 5.3698),
   ("Nice", 43.7102, 7.2620),
   ("Toulon", 43.1242, 5.9280),
   ("Avignon", 43.9493, 4.8055),
   ("Gap", 44.5580, 6.0827),
   ("Digne-les-Bains", 44.0922, 6.2376)]

/-- The deterministic output path `data/raw/openmeteo_paca_<start>_<end>.csv`. -/
def raw_out_file (start_date end_date : String) : String :=
  "data/raw/openmeteo_paca_" ++ start_date ++ "_" ++ end_date ++ ".csv"

/-- The filesystem, as a path → raw-CSV-content association list. -/
structure FS where
  files : List (String × List RawRow)
deriving DecidableEq, Repr

/-- `Path.exists()` on the modelled filesystem. -/
def FS.pathExists (fs : FS) (p : String) : Bool :=
  (fs.files.map Prod.fst).contains p

/-- `DataFrame.to_csv(out_file)`: write (overwrite) one file. -/
def FS.write (fs : FS) (p : String) (content : List RawRow) : FS :=
  ⟨(p, content) :: fs.files.filter (fun e => e.1 ≠ p)⟩

/-- What one `download_paca_cities` call produced: the returned path, the
filesystem after the call, and how many network fetches
(`fetch_openmeteo_daily` invocations) it performed. -/
structure DownloadResult where
  path : String
  fs : FS
  networkCalls : Nat
deriving DecidableEq, Repr

/-- `download_paca_cities(start_date, end_date, force_download)`.
`fetch_openmeteo_daily` is abstracted as the environment `fetchDaily`
from coordinates to the per-city frame (its rows carry no `city` yet);
each city's frame is tagged with `df_city["city"] = city`, all frames are
concatenated in registry order and written to the deterministic path —
unless that file already exists and `force_download` is false, in which
case the existing path is returned with no fetch at all. -/
def download_paca_cities (fetchDaily : ℚ → ℚ → List RawRow) (fs : FS)
    (start_date end_date : String) (force_download : Bool) : DownloadResult :=
  let out_file := raw_out_file start_date end_date
  if fs.pathExists out_file && !force_download then
    ⟨out_file, fs, 0⟩
  else
    let all_frames := PACA_CITIES.map (fun c =>
      (fetchDaily c.2.1 c.2.2).map (fun r => { r with city := some c.1 }))
    let full := all_frames.flatten
    ⟨out_file, fs.write out_file full, PACA_CITIES.length⟩

/-- Python's `<` on strings: lexicographic comparison of the code-point
sequences. -/
def lexLtB : List Char → List Char → Bool
  | [], [] => false
  | [], _ :: _ => true
  | _ :: _, [] => false
  | a :: as, b :: bs => if a < b then true else if b < a then false else lexLtB as bs

/-- Python's `<=` on strings, on the code-point sequences. -/
def lexLeB : List Char → List Char → Bool
  | [], _ => true
  | _ :: _, [] => false
  | a :: as, b :: bs => if a < b then true else if b < a then false else lexLeB as bs

/-- Python's `<=` on strings, as a relation. -/
def strLe (a b : String) : Prop := lexLeB a.data b.data = true

instance : DecidableRel strLe := fun _ _ =>
  inferInstanceAs (Decidable (_ = true))

/-- `REQUIRED_COLUMNS` of `weather_processing.py` (a Python `set`; listed
here in the source's literal order). -/
def REQUIRED_COLUMNS : List String :=
  ["date", "t_min", "t_max", "precipitation", "wind_max", "city"]

/-- `validate_raw_schema(df)`: the set difference
`REQUIRED_COLUMNS - set(df.columns)`; on a non-empty difference raises
`ValueError` listing `sorted(missing)`. -/
def validate_raw_schema (columns : List String) : Except (List String) Unit :=
  let missing := (REQUIRED_COLUMNS.filter (fun c => !columns.contains c)).insertionSort strLe
  if missing.isEmpty then .ok () else .error missing

/-- One row of the processed dataset: the (coerced) original columns plus
the four derived columns. -/
structure ProcRow where
  date : Option Nat
  t_max : Cell
  t_min : Cell
  precipitation : Cell
  wind_max : Cell
  city : Option String
  t_mean : Cell
  hot_day_30 : Bool
  hot_day_35 : Bool
  heavy_rain_20 : Bool
deriving DecidableEq, Repr

/-- The per-row effect of `add_climate_indicators`: coerce the four
numeric columns with `pd.to_numeric(…, errors="coerce")`, then derive
`t_mean`, `hot_day_30`, `hot_day_35`, `heavy_rain_20`. -/
def add_climate_indicators_row (r : RawRow) : ProcRow :=
  let t_min := to_numeric r.t_min
  let t_max := to_numeric r.t_max
  let precipitation := to_numeric r.precipitation
  let wind_max := to_numeric r.wind_max
  { date := r.date
    t_max := t_max
    t_min := t_min
    precipitation := precipitation
    wind_max := wind_max
    city := r.city
    t_mean := (t_min.add t_max).half
    hot_day_30 := t_max.geB 30
    hot_day_35 := t_max.geB 35
    heavy_rain_20 := precipitation.geB 20 }

/-- `add_climate_indicators(df)`: works on `out = df.copy()`, so the
input frame is untouched and a new frame is returned. -/
def add_climate_indicators (df : List RawRow) : List ProcRow :=
  df.map add_climate_indicators_row

/-- The sort key of `df.sort_values(["city", "date"])` on a cleaned row:
the city's code-point sequence and the date ordinal (missing `city`/`date`
were dropped before the sort, so the defaults are never reached on rows
actually sorted). -/
def rowKey (r : RawRow) : List Char × Nat :=
  ((r.city.getD "").data, r.date.getD 0)

/-- Lexicographic (city ascending, date ascending) order on raw rows. -/
def rowLe (a b : RawRow) : Prop :=
  lexLtB (rowKey a).1 (rowKey b).1 = true ∨
    ((rowKey a).1 = (rowKey b).1 ∧ (rowKey a).2 ≤ (rowKey b).2)

instance : DecidableRel rowLe := fun _ _ =>
  inferInstanceAs (Decidable (_ ∨ _))

/-- Same order on processed rows (used only to state sortedness). -/
def procRowLe (a b : ProcRow) : Prop :=
  lexLtB (a.city.getD "").data (b.city.getD "").data = true ∨
    ((a.city.getD "").data = (b.city.getD "").data ∧ a.date.getD 0 ≤ b.date.getD 0)

/-- `df.sort_values(["city", "date"])`: some permutation of the rows
sorted by (city, date); tie order among equal keys is not specified by
the source (numpy quicksort), and no claim depends on it. -/
def sort_values_city_date (df : List RawRow) : List RawRow :=
  df.insertionSort rowLe

/-- The errors `process_raw_to_processed` can raise. -/
inductive ProcErr
  /-- `FileNotFoundError` -/
  | notFound
  /-- the `ValueError` of `validate_raw_schema`, with its sorted missing-column list -/
  | schemaError (missing : List String)
deriving DecidableEq, Repr

/-- `process_raw_to_processed(raw_csv_path)`: existence check, read
(modelled as the `columns`/`rows` arguments), schema validation,
`dropna(subset=["date", "city"])`, sort by (city, date), indicators.
The value returned models the content written to the processed file. -/
def process_raw_to_processed (fileExists : Bool) (columns : List String)
    (rows : List RawRow) : Except ProcErr (List ProcRow) :=
  if !fileExists then .error .notFound
  else
    match validate_raw_schema columns with
    | .error missing => .error (.schemaError missing)
    | .ok () =>
        let cleaned := rows.filter (fun r => r.date.isSome && r.city.isSome)
        let sorted := sort_values_city_date cleaned
        .ok (add_climate_indicators sorted)

/-! ### Helper lemmas: the retry loop on all-failing environments -/

/-- One failing step of the retry loop. -/
lemma fetchLoop_cons_error {env : Nat → AttemptOutcome} {b : ℚ} {retries a : Nat}
    {exc : FetchExc} (rest : List Nat) (last : Option FetchExc)
    (he : attemptOnce (env a) = .error exc) :
    fetchLoop env b retries (a :: rest) last =
      ⟨(fetchLoop env b retries rest (some exc)).result,
       (fetchLoop env b retries rest (some exc)).attemptsMade + 1,
       b ^ a :: (fetchLoop env b retries rest (some exc)).waits⟩ := by
  show (match attemptOnce (env a) with
    | .ok j => (⟨.ok j, 1, []⟩ : FetchOutcome)
    | .error exc =>
        let o := fetchLoop env b retries rest (some exc)
        ⟨o.result, o.attemptsMade + 1, b ^ a :: o.waits⟩) = _
  rw [he]

/-- If every attempt in the environment raises, the retry loop runs every
scheduled attempt, waits after each one, and ends with the terminal error
wrapping the exception of the final attempt. -/
lemma fetchLoop_allError (env : Nat → AttemptOutcome) (b : ℚ) (retries : Nat)
    (h : ∀ a, ∃ e, attemptOnce (env a) = .error e) :
    ∀ m s last, ∃ e, attemptOnce (env (s + m)) = .error e ∧
      fetchLoop env b retries (List.range' s (m + 1)) last =
        ⟨.error (retries, some e), m + 1, (List.range' s (m + 1)).map (b ^ ·)⟩ := by
  intro m
  induction m with
  | zero =>
      intro s last
      obtain ⟨e, he⟩ := h s
      refine ⟨e, by simpa using he, ?_⟩
      rw [List.range'_succ, fetchLoop_cons_error _ _ he]
      rfl
  | succ m ih =>
      intro s last
      obtain ⟨e0, he0⟩ := h s
      obtain ⟨e, he, hl⟩ := ih (s + 1) (some e0)
      refine ⟨e, ?_, ?_⟩
      · have harith : s + (m + 1) = s + 1 + m := by omega
        rw [harith]; exact he
      · rw [List.range'_succ, fetchLoop_cons_error _ _ he0, hl]
        rfl

/-- A response with a non-transient 4xx/5xx status makes the attempt raise
the `raise_for_status` error. -/
lemma attemptOnce_nontransient (s : Nat) (body : Option String)
    (h4 : 400 ≤ s) (h6 : s < 600) (hnt : s ∉ transientStatuses) :
    attemptOnce (.resp ⟨s, body⟩) = .error (.httpStatus s) := by
  simp [attemptOnce, hnt, h4, h6]

/-! ### Claim C1 -/

/-- An environment answering HTTP 400 on the first attempt and HTTP 200
with a payload on the second. -/
def env400then200 : Nat → AttemptOutcome := fun a =>
  if a = 1 then .resp ⟨400, some "Bad Request"⟩ else .resp ⟨200, some "payload"⟩

/-- C1, counterexample: against an endpoint whose first response is the
non-transient HTTP 400, `_get_json_with_retries` does not fail on the
first attempt — it sleeps one backoff wait, retries, and returns the
second attempt's payload. So a non-transient 4xx is *not* surfaced
immediately without retry or backoff. -/
theorem http400_retried_cex :
    env400then200 1 = .resp ⟨400, some "Bad Request"⟩ ∧
    get_json_with_retries env400then200 3 (8 / 5) = ⟨.ok "payload", 2, [8 / 5]⟩ := by
  refine ⟨rfl, ?_⟩
  simp [get_json_with_retries, fetchLoop, attemptOnce, env400then200, List.range',
    transientStatuses]

/-- C1, amended: a non-transient HTTP error status (4xx/5xx outside
`{429, 500, 502, 503, 504}`) is treated exactly like a transient failure:
the `raise_for_status` error is caught by the blanket `except`, a backoff
wait of `backoff_factor ^ attempt` follows every attempt, all `retries`
attempts are made, and the call ends with the terminal `RuntimeError`
wrapping the last HTTP-status error instead of surfacing it immediately. -/
theorem nontransient_4xx_retried_to_exhaustion (retries : Nat) (b : ℚ) (s : Nat)
    (body : Option String) (hr : 1 ≤ retries) (h4 : 400 ≤ s) (h6 : s < 600)
    (hnt : s ∉ transientStatuses) :
    get_json_with_retries (fun _ => .resp ⟨s, body⟩) retries b =
      ⟨.error (retries, some (.httpStatus s)), retries,
       (List.range' 1 retries).map (b ^ ·)⟩ := by
  have hone : attemptOnce (.resp ⟨s, body⟩) = .error (.httpStatus s) :=
    attemptOnce_nontransient s body h4 h6 hnt
  obtain ⟨m, rfl⟩ : ∃ m, retries = m + 1 := ⟨retries - 1, by omega⟩
  obtain ⟨e, he, hl⟩ :=
    fetchLoop_allError (fun _ => .resp ⟨s, body⟩) b (m + 1)
      (fun _ => ⟨.httpStatus s, hone⟩) m 1 none
  rw [hone] at he
  rw [get_json_with_retries, hl, ← Except.error.inj he]

/-- Witness for the amended C1 at status 404, three retries, backoff 2. -/
theorem nontransient_4xx_retried_to_exhaustion_witness :
    (1 ≤ 3 ∧ 400 ≤ 404 ∧ 404 < 600 ∧ 404 ∉ transientStatuses) ∧
    get_json_with_retries (fun _ => .resp ⟨404, none⟩) 3 2 =
      ⟨.error (3, some (.httpStatus 404)), 3, [2, 4, 8]⟩ := by
  refine ⟨⟨by norm_num, by norm_num, by norm_num, by decide⟩, ?_⟩
  rw [nontransient_4xx_retried_to_exhaustion 3 2 404 none (by norm_num) (by norm_num)
    (by norm_num) (by decide)]
  norm_num [List.range']

/-! ### Claim C2 -/

/-- C2: in an environment where every attempt fails (e.g. the endpoint
always answers HTTP 500), `_get_json_with_retries` makes exactly
`retries` attempts and then fails with the terminal `RuntimeError`
reporting `retries` and wrapping (as `last_exc`) the exception of the
last attempt. -/
theorem transient_failures_exhaust_retries (env : Nat → AttemptOutcome)
    (retries : Nat) (b : ℚ) (hr : 1 ≤ retries)
    (h : ∀ a, ∃ e, attemptOnce (env a) = .error e) :
    ∃ e, attemptOnce (env retries) = .error e ∧
      get_json_with_retries env retries b =
        ⟨.error (retries, some e), retries, (List.range' 1 retries).map (b ^ ·)⟩ := by
  obtain ⟨m, rfl⟩ : ∃ m, retries = m + 1 := ⟨retries - 1, by omega⟩
  obtain ⟨e, he, hl⟩ := fetchLoop_allError env b (m + 1) h m 1 none
  exact ⟨e, by simpa [Nat.add_comm] using he, hl⟩

/-- An endpoint that always returns HTTP 500. -/
def env500always : Nat → AttemptOutcome := fun _ =>
  .resp ⟨500, some "Internal Server Error"⟩

/-- Witness for C2: always-500 endpoint, three retries, backoff 2. -/
theorem transient_failures_exhaust_retries_witness :
    (1 ≤ 3 ∧ ∀ a : Nat, ∃ e, attemptOnce (env500always a) = .error e) ∧
    get_json_with_retries env500always 3 2 =
      ⟨.error (3, some (.tempHTTP 500)), 3, [2, 4, 8]⟩ := by
  have h : ∀ a : Nat, ∃ e, attemptOnce (env500always a) = .error e :=
    fun _ => ⟨.tempHTTP 500, rfl⟩
  obtain ⟨e, he, hrun⟩ :=
    transient_failures_exhaust_retries env500always 3 2 (by norm_num) h
  have hee : FetchExc.tempHTTP 500 = e := Except.error.inj (by rw [← he]; rfl)
  refine ⟨⟨by norm_num, h⟩, ?_⟩
  rw [hrun, ← hee]
  norm_num [List.range']

/-! ### Claim C3 -/

/-- An endpoint answering HTTP 503 on the first two attempts and
HTTP 200 with `payload` afterwards. -/
def env503twice (body503 : Option String) (payload : String) :
    Nat → AttemptOutcome := fun a =>
  if a ≤ 2 then .resp ⟨503, body503⟩ else .resp ⟨200, some payload⟩

/-- C3: with 503 on the first two attempts and 200 on the third,
`_get_json_with_retries` (any `retries ≥ 3`) succeeds on the third
attempt — i.e. after exactly 2 retries — returning the parsed payload of
the 200 response, having waited `backoff_factor ^ 1` then
`backoff_factor ^ 2` seconds before the retries. -/
theorem two_503_then_200_succeeds (retries : Nat) (b : ℚ) (body503 : Option String)
    (payload : String) (hr : 3 ≤ retries) :
    get_json_with_retries (env503twice body503 payload) retries b =
      ⟨.ok payload, 3, [b ^ 1, b ^ 2]⟩ := by
  obtain ⟨n, rfl⟩ : ∃ n, retries = n + 3 := ⟨retries - 3, by omega⟩
  have h1 : List.range' 1 (n + 3) = 1 :: 2 :: 3 :: List.range' 4 n := by
    rw [List.range'_succ, List.range'_succ, List.range'_succ]
  rw [get_json_with_retries, h1]
  simp [fetchLoop, attemptOnce, env503twice, transientStatuses]

/-- Witness for C3 at `retries = 3`, backoff 2, payload `"payload"`. -/
theorem two_503_then_200_succeeds_witness :
    (3 ≤ 3 : Prop) ∧
    get_json_with_retries (env503twice (some "busy") "payload") 3 2 =
      ⟨.ok "payload", 3, [2, 4]⟩ := by
  refine ⟨le_refl 3, ?_⟩
  rw [two_503_then_200_succeeds 3 2 (some "busy") "payload" (le_refl 3)]
  norm_num

/-! ### Claim C4 -/

/-- Writing a file makes it exist. -/
lemma FS.pathExists_write (fs : FS) (p : String) (c : List RawRow) :
    (fs.write p c).pathExists p = true := by
  simp [FS.pathExists, FS.write]

/-- C4: `download_paca_cities` is idempotent under caching. If the
deterministic output file for the range already exists and
`force_download` is false, the call returns that path at once, leaves the
filesystem unchanged and performs zero network fetches; consequently a
second call with the identical range right after a first (successful)
call performs zero network fetches. -/
theorem download_cache_hit_no_network (fetchDaily : ℚ → ℚ → List RawRow)
    (fs : FS) (start_date end_date : String) :
    (fs.pathExists (raw_out_file start_date end_date) = true →
      download_paca_cities fetchDaily fs start_date end_date false =
        ⟨raw_out_file start_date end_date, fs, 0⟩) ∧
    download_paca_cities fetchDaily
        (download_paca_cities fetchDaily fs start_date end_date false).fs
        start_date end_date false =
      ⟨raw_out_file start_date end_date,
       (download_paca_cities fetchDaily fs start_date end_date false).fs, 0⟩ := by
  constructor
  · intro h
    simp [download_paca_cities, h]
  · by_cases h : fs.pathExists (raw_out_file start_date end_date) = true
    · simp [download_paca_cities, h]
    · have h0 : fs.pathExists (raw_out_file start_date end_date) = false :=
        Bool.not_eq_true _ ▸ eq_false_of_ne_true h
      simp [download_paca_cities, h0, FS.pathExists_write]

/-- Witness for C4: a cache hit on a one-file filesystem, and the
back-to-back double call starting from the empty filesystem. -/
theorem download_cache_hit_no_network_witness :
    FS.pathExists ⟨[(raw_out_file "2013-01-01" "2023-12-31", [])]⟩
        (raw_out_file "2013-01-01" "2023-12-31") = true ∧
    download_paca_cities (fun _ _ => [])
        ⟨[(raw_out_file "2013-01-01" "2023-12-31", [])]⟩
        "2013-01-01" "2023-12-31" false =
      ⟨raw_out_file "2013-01-01" "2023-12-31",
       ⟨[(raw_out_file "2013-01-01" "2023-12-31", [])]⟩, 0⟩ ∧
    download_paca_cities (fun _ _ => [])
        (download_paca_cities (fun _ _ => []) ⟨[]⟩ "2013-01-01" "2023-12-31" false).fs
        "2013-01-01" "2023-12-31" false =
      ⟨raw_out_file "2013-01-01" "2023-12-31",
       (download_paca_cities (fun _ _ => []) ⟨[]⟩ "2013-01-01" "2023-12-31" false).fs,
       0⟩ := by
  have hhit : FS.pathExists ⟨[(raw_out_file "2013-01-01" "2023-12-31", [])]⟩
      (raw_out_file "2013-01-01" "2023-12-31") = true := by
    simp [FS.pathExists]
  exact ⟨hhit,
    (download_cache_hit_no_network (fun _ _ => [])
      ⟨[(raw_out_file "2013-01-01" "2023-12-31", [])]⟩ "2013-01-01" "2023-12-31").1 hhit,
    (download_cache_hit_no_network (fun _ _ => []) ⟨[]⟩ "2013-01-01" "2023-12-31").2⟩

/-! ### Claim C5 -/

/-- A cell that `pd.to_numeric(…, errors="coerce")` leaves untouched:
already numeric or already missing. -/
def Cell.alreadyNumeric : Cell → Bool
  | .num _ => true
  | .na => true
  | _ => false

/-- A raw row whose `t_min` holds a string `pd.to_numeric` cannot parse. -/
def rowBadTmin : RawRow :=
  { date := some 0, t_max := .num 20, t_min := .strBad "n/a",
    precipitation := .na, wind_max := .num 10, city := some "Nice" }

/-- C5, counterexample: `add_climate_indicators` does *not* leave every
original column value untouched — the four numeric columns are coerced in
the output, so a `t_min` holding an unparsable string comes out as a
missing value, different from the input value. -/
theorem add_climate_indicators_coerces_cex :
    (add_climate_indicators [rowBadTmin]).map ProcRow.t_min ≠
      [rowBadTmin].map RawRow.t_min := by
  decide

/-- C5, amended: `add_climate_indicators` is pure and deterministic (it
is a function of its input); the output keeps every original column, with
`date` and `city` values untouched and the four numeric columns holding
exactly `pd.to_numeric(…, errors="coerce")` of the originals — so any
value that is already numeric or missing is untouched, while numeric
strings are replaced by their number and unparsable values by missing. -/
theorem add_climate_indicators_frame (df : List RawRow) :
    add_climate_indicators df = df.map add_climate_indicators_row ∧
    (add_climate_indicators df).length = df.length ∧
    (∀ r : RawRow,
      (add_climate_indicators_row r).date = r.date ∧
      (add_climate_indicators_row r).city = r.city ∧
      (add_climate_indicators_row r).t_min = to_numeric r.t_min ∧
      (add_climate_indicators_row r).t_max = to_numeric r.t_max ∧
      (add_climate_indicators_row r).precipitation = to_numeric r.precipitation ∧
      (add_climate_indicators_row r).wind_max = to_numeric r.wind_max) ∧
    ∀ c : Cell, c.alreadyNumeric = true → to_numeric c = c := by
  refine ⟨rfl, by simp [add_climate_indicators],
    fun r => ⟨rfl, rfl, rfl, rfl, rfl, rfl⟩, fun c hc => ?_⟩
  cases c <;> simp_all [Cell.alreadyNumeric, to_numeric]

/-- Witness for the amended C5, at a one-row frame and a numeric cell. -/
theorem add_climate_indicators_frame_witness :
    Cell.alreadyNumeric (Cell.num 5) = true ∧
    to_numeric (Cell.num 5) = Cell.num 5 ∧
    (add_climate_indicators_row rowBadTmin).t_min = to_numeric rowBadTmin.t_min ∧
    (add_climate_indicators_row rowBadTmin).date = rowBadTmin.date :=
  ⟨rfl, (add_climate_indicators_frame [rowBadTmin]).2.2.2 (Cell.num 5) rfl,
   ((add_climate_indicators_frame [rowBadTmin]).2.2.1 rowBadTmin).2.2.1,
   ((add_climate_indicators_frame [rowBadTmin]).2.2.1 rowBadTmin).1⟩

/-! ### Claims C6, C7, C10: the derived columns -/

/-- Halving the sum of two present values. -/
lemma Cell.half_add_num {x y : Cell} {a b : ℚ} (hx : x = .num a) (hy : y = .num b) :
    (x.add y).half = .num ((a + b) / 2) := by
  subst hx hy; rfl

/-- A missing operand makes the halved sum missing. -/
lemma Cell.half_add_na {x y : Cell} (h : x = .na ∨ y = .na) :
    (x.add y).half = .na := by
  rcases h with h | h
  · subst h; cases y <;> rfl
  · subst h; cases x <;> rfl

/-- The concrete raw row of the spec's example: `t_max = 32`, `t_min = 20`. -/
def row_tmax32_tmin20 : RawRow :=
  { date := some 0, t_max := .num 32, t_min := .num 20, precipitation := .num 0,
    wind_max := .num 10, city := some "Marseille" }

/-- C6: in every output row, `t_mean` is half the sum of the (coerced)
`t_min` and `t_max`, and is missing whenever either of them is missing;
in particular the row with `t_max = 32`, `t_min = 20` gets
`t_mean = 26`, `hot_day_30 = true`, `hot_day_35 = false`. -/
theorem t_mean_half_sum_missing_propagates (df : List RawRow) (r : RawRow) :
    add_climate_indicators df = df.map add_climate_indicators_row ∧
    (∀ a b : ℚ, (add_climate_indicators_row r).t_min = .num a →
      (add_climate_indicators_row r).t_max = .num b →
      (add_climate_indicators_row r).t_mean = .num ((a + b) / 2)) ∧
    (((add_climate_indicators_row r).t_min = .na ∨
        (add_climate_indicators_row r).t_max = .na) →
      (add_climate_indicators_row r).t_mean = .na) ∧
    ((add_climate_indicators_row row_tmax32_tmin20).t_mean = .num 26 ∧
     (add_climate_indicators_row row_tmax32_tmin20).hot_day_30 = true ∧
     (add_climate_indicators_row row_tmax32_tmin20).hot_day_35 = false) := by
  refine ⟨rfl, fun a b ha hb => Cell.half_add_num ha hb,
    fun h => Cell.half_add_na h, ?_, ?_, ?_⟩
  · show ((to_numeric row_tmax32_tmin20.t_min).add
        (to_numeric row_tmax32_tmin20.t_max)).half = Cell.num 26
    refine (Cell.half_add_num (x := to_numeric row_tmax32_tmin20.t_min)
      (y := to_numeric row_tmax32_tmin20.t_max) (a := 20) (b := 32) rfl rfl).trans ?_
    norm_num
  · show (to_numeric row_tmax32_tmin20.t_max).geB 30 = true
    simp [row_tmax32_tmin20, to_numeric, Cell.geB]
    norm_num
  · show (to_numeric row_tmax32_tmin20.t_max).geB 35 = false
    simp [row_tmax32_tmin20, to_numeric, Cell.geB]
    norm_num

/-- Witness for C6 at the spec's example row. -/
theorem t_mean_half_sum_missing_propagates_witness :
    (add_climate_indicators_row row_tmax32_tmin20).t_min = .num 20 ∧
    (add_climate_indicators_row row_tmax32_tmin20).t_max = .num 32 ∧
    (add_climate_indicators_row row_tmax32_tmin20).t_mean = .num ((20 + 32) / 2) :=
  ⟨rfl, rfl,
   (t_mean_half_sum_missing_propagates [] row_tmax32_tmin20).2.1 20 32 rfl rfl⟩

/-- C7: in every output row with a present (coerced) `t_max = q`,
`hot_day_30` is true iff `q ≥ 30` and `hot_day_35` is true iff `q ≥ 35`;
and `hot_day_35` implies `hot_day_30` on every row (the flags are plain
booleans, never missing). -/
theorem hot_day_flags_thresholds (df : List RawRow) (r : RawRow) (q : ℚ) :
    add_climate_indicators df = df.map add_climate_indicators_row ∧
    ((add_climate_indicators_row r).t_max = .num q →
      (((add_climate_indicators_row r).hot_day_30 = true ↔ 30 ≤ q) ∧
       ((add_climate_indicators_row r).hot_day_35 = true ↔ 35 ≤ q))) ∧
    ((add_climate_indicators_row r).hot_day_35 = true →
      (add_climate_indicators_row r).hot_day_30 = true) := by
  refine ⟨rfl, fun h => ?_, fun h35 => ?_⟩
  · have h' : to_numeric r.t_max = .num q := h
    constructor
    · show (to_numeric r.t_max).geB 30 = true ↔ 30 ≤ q
      rw [h']; simp [Cell.geB]
    · show (to_numeric r.t_max).geB 35 = true ↔ 35 ≤ q
      rw [h']; simp [Cell.geB]
  · have h35' : (to_numeric r.t_max).geB 35 = true := h35
    show (to_numeric r.t_max).geB 30 = true
    cases hm : to_numeric r.t_max <;> rw [hm] at h35' <;>
      simp [Cell.geB] at h35' ⊢
    linarith

/-- Witness for C7 at the `t_max = 32` example row. -/
theorem hot_day_flags_thresholds_witness :
    ((add_climate_indicators_row row_tmax32_tmin20).hot_day_30 = true ↔ (30 : ℚ) ≤ 32) ∧
    ((add_climate_indicators_row row_tmax32_tmin20).hot_day_35 = true ↔ (35 : ℚ) ≤ 32) :=
  (hot_day_flags_thresholds [] row_tmax32_tmin20 32).2.1 rfl

/-- A raw row with unparsable `t_max` and missing `precipitation`. -/
def rowMissingNums : RawRow :=
  { date := some 0, t_max := .strBad "??", t_min := .na, precipitation := .na,
    wind_max := .na, city := some "Gap" }

/-- C10: a missing (absent or unparsable, after coercion) `t_max` yields
`hot_day_30 = false` and `hot_day_35 = false` — false, not missing — and a
missing `precipitation` likewise yields `heavy_rain_20 = false`. -/
theorem missing_threshold_inputs_false_flags (df : List RawRow) (r : RawRow) :
    add_climate_indicators df = df.map add_climate_indicators_row ∧
    ((add_climate_indicators_row r).t_max = .na →
      (add_climate_indicators_row r).hot_day_30 = false ∧
      (add_climate_indicators_row r).hot_day_35 = false) ∧
    ((add_climate_indicators_row r).precipitation = .na →
      (add_climate_indicators_row r).heavy_rain_20 = false) := by
  refine ⟨rfl, fun h => ?_, fun h => ?_⟩
  · have h' : to_numeric r.t_max = .na := h
    constructor
    · show (to_numeric r.t_max).geB 30 = false
      rw [h']; rfl
    · show (to_numeric r.t_max).geB 35 = false
      rw [h']; rfl
  · have h' : to_numeric r.precipitation = .na := h
    show (to_numeric r.precipitation).geB 20 = false
    rw [h']; rfl

/-- Witness for C10 at a row with unparsable `t_max` and missing
`precipitation`. -/
theorem missing_threshold_inputs_false_flags_witness :
    ((add_climate_indicators_row rowMissingNums).t_max = .na ∧
     (add_climate_indicators_row rowMissingNums).hot_day_30 = false ∧
     (add_climate_indicators_row rowMissingNums).hot_day_35 = false) ∧
    ((add_climate_indicators_row rowMissingNums).precipitation = .na ∧
     (add_climate_indicators_row rowMissingNums).heavy_rain_20 = false) := by
  obtain ⟨-, h1, h2⟩ := missing_threshold_inputs_false_flags [] rowMissingNums
  exact ⟨⟨rfl, h1 rfl⟩, ⟨rfl, h2 rfl⟩⟩

/-! ### Claim C8: schema validation -/

/-- Lexicographic `<=` on code-point sequences is total. -/
lemma lexLeB_total : ∀ as bs : List Char, lexLeB as bs = true ∨ lexLeB bs as = true
  | [], _ => .inl rfl
  | _ :: _, [] => .inr rfl
  | a :: as, b :: bs => by
      rcases lt_trichotomy a b with h | h | h
      · left; simp [lexLeB, h]
      · subst h
        rcases lexLeB_total as bs with ih | ih
        · left; simp [lexLeB, lt_irrefl, ih]
        · right; simp [lexLeB, lt_irrefl, ih]
      · right; simp [lexLeB, h]

/-- Lexicographic `<=` on code-point sequences is transitive. -/
lemma lexLeB_trans : ∀ as bs cs : List Char,
    lexLeB as bs = true → lexLeB bs cs = true → lexLeB as cs = true
  | [], _, _, _, _ => rfl
  | _ :: _, [], _, h, _ => by simp [lexLeB] at h
  | _ :: _, _ :: _, [], _, h => by simp [lexLeB] at h
  | a :: as, b :: bs, c :: cs, h1, h2 => by
      by_cases hab : a < b
      · by_cases hbc : b < c
        · simp [lexLeB, lt_trans hab hbc]
        · by_cases hcb : c < b
          · simp [lexLeB, hbc, hcb] at h2
          · have hbc' : b = c := le_antisymm (not_lt.1 hcb) (not_lt.1 hbc)
            subst hbc'; simp [lexLeB, hab]
      · by_cases hba : b < a
        · simp [lexLeB, hab, hba] at h1
        · have hab' : a = b := le_antisymm (not_lt.1 hba) (not_lt.1 hab)
          subst hab'
          simp only [lexLeB, lt_irrefl, if_false] at h1
          by_cases hac : a < c
          · simp [lexLeB, hac]
          · by_cases hca : c < a
            · simp [lexLeB, hac, hca] at h2
            · have hac' : a = c := le_antisymm (not_lt.1 hca) (not_lt.1 hac)
              subst hac'
              simp only [lexLeB, lt_irrefl, if_false] at h2 ⊢
              exact lexLeB_trans as bs cs h1 h2

instance : IsTotal String strLe := ⟨fun a b => lexLeB_total a.data b.data⟩

instance : IsTrans String strLe := ⟨fun a b c => lexLeB_trans a.data b.data c.data⟩

/-- C8: `validate_raw_schema` succeeds iff the set difference between the
required columns and the present columns is empty; when it fails, the
error lists exactly the missing required columns, in (Python string)
sorted order; in particular a dataset missing `wind_max` and `city` fails
listing exactly `["city", "wind_max"]`. -/
theorem validate_raw_schema_spec (columns : List String) :
    (validate_raw_schema columns = .ok () ↔
      REQUIRED_COLUMNS.filter (fun c => !columns.contains c) = []) ∧
    (∀ missing, validate_raw_schema columns = .error missing →
      missing ≠ [] ∧ List.Sorted strLe missing ∧
      ∀ f, f ∈ missing ↔ f ∈ REQUIRED_COLUMNS ∧ f ∉ columns) ∧
    validate_raw_schema ["date", "t_min", "t_max", "precipitation"] =
      .error ["city", "wind_max"] := by
  have hperm : List.Perm
      ((REQUIRED_COLUMNS.filter (fun c => !columns.contains c)).insertionSort strLe)
      (REQUIRED_COLUMNS.filter (fun c => !columns.contains c)) :=
    List.perm_insertionSort strLe _
  have hval : validate_raw_schema columns =
      if ((REQUIRED_COLUMNS.filter (fun c => !columns.contains c)).insertionSort
          strLe).isEmpty
      then .ok ()
      else .error ((REQUIRED_COLUMNS.filter
          (fun c => !columns.contains c)).insertionSort strLe) := rfl
  by_cases he : ((REQUIRED_COLUMNS.filter
      (fun c => !columns.contains c)).insertionSort strLe).isEmpty
  · have hs : (REQUIRED_COLUMNS.filter
        (fun c => !columns.contains c)).insertionSort strLe = [] :=
      List.isEmpty_iff.1 he
    have hm : REQUIRED_COLUMNS.filter (fun c => !columns.contains c) = [] :=
      ((hs ▸ hperm).nil_eq).symm
    refine ⟨⟨fun _ => hm, fun _ => by rw [hval, if_pos he]⟩, ?_, by decide⟩
    intro missing hmiss
    rw [hval, if_pos he] at hmiss
    cases hmiss
  · have hs : (REQUIRED_COLUMNS.filter
        (fun c => !columns.contains c)).insertionSort strLe ≠ [] :=
      fun h => he (by rw [h]; rfl)
    have hm : REQUIRED_COLUMNS.filter (fun c => !columns.contains c) ≠ [] :=
      fun h => hs (by rw [h]; rfl)
    refine ⟨⟨fun h => ?_, fun h => absurd h hm⟩, ?_, by decide⟩
    · rw [hval, if_neg he] at h
      cases h
    · intro missing hmiss
      rw [hval, if_neg he] at hmiss
      obtain rfl := Except.error.inj hmiss
      refine ⟨hs, List.sorted_insertionSort strLe _, fun f => ?_⟩
      rw [hperm.mem_iff, List.mem_filter]
      simp

/-- Witness for C8 at the concrete dataset missing `wind_max` and `city`. -/
theorem validate_raw_schema_spec_witness :
    validate_raw_schema ["date", "t_min", "t_max", "precipitation"] =
      .error ["city", "wind_max"] ∧
    (["city", "wind_max"] ≠ [] ∧ List.Sorted strLe ["city", "wind_max"] ∧
      ∀ f, f ∈ ["city", "wind_max"] ↔
        f ∈ REQUIRED_COLUMNS ∧ f ∉ ["date", "t_min", "t_max", "precipitation"]) :=
  ⟨by decide,
   (validate_raw_schema_spec ["date", "t_min", "t_max", "precipitation"]).2.1
     ["city", "wind_max"] (by decide)⟩

/-! ### Claim C9: the processing pipeline -/

/-- Lexicographic `<` on code-point sequences is transitive. -/
lemma lexLtB_trans : ∀ as bs cs : List Char,
    lexLtB as bs = true → lexLtB bs cs = true → lexLtB as cs = true
  | [], [], _, h, _ => by simp [lexLtB] at h
  | [], _ :: _, [], _, h => by simp [lexLtB] at h
  | [], _ :: _, _ :: _, _, _ => rfl
  | _ :: _, [], _, h, _ => by simp [lexLtB] at h
  | _ :: _, _ :: _, [], _, h => by simp [lexLtB] at h
  | a :: as, b :: bs, c :: cs, h1, h2 => by
      by_cases hab : a < b
      · by_cases hbc : b < c
        · simp [lexLtB, lt_trans hab hbc]
        · by_cases hcb : c < b
          · simp [lexLtB, hbc, hcb] at h2
          · have hbc' : b = c := le_antisymm (not_lt.1 hcb) (not_lt.1 hbc)
            subst hbc'; simp [lexLtB, hab]
      · by_cases hba : b < a
        · simp [lexLtB, hab, hba] at h1
        · have hab' : a = b := le_antisymm (not_lt.1 hba) (not_lt.1 hab)
          subst hab'
          simp only [lexLtB, lt_irrefl, if_false] at h1
          by_cases hac : a < c
          · simp [lexLtB, hac]
          · by_cases hca : c < a
            · simp [lexLtB, hac, hca] at h2
            · have hac' : a = c := le_antisymm (not_lt.1 hca) (not_lt.1 hac)
              subst hac'
              simp only [lexLtB, lt_irrefl, if_false] at h2 ⊢
              exact lexLtB_trans as bs cs h1 h2

/-- Lexicographic `<` on code-point sequences is trichotomous. -/
lemma lexLtB_trichotomy : ∀ as bs : List Char,
    lexLtB as bs = true ∨ as = bs ∨ lexLtB bs as = true
  | [], [] => .inr (.inl rfl)
  | [], _ :: _ => .inl rfl
  | _ :: _, [] => .inr (.inr rfl)
  | a :: as, b :: bs => by
      rcases lt_trichotomy a b with h | h | h
      · left; simp [lexLtB, h]
      · subst h
        rcases lexLtB_trichotomy as bs with ih | ih | ih
        · left; simp [lexLtB, lt_irrefl, ih]
        · right; left; rw [ih]
        · right; right; simp [lexLtB, lt_irrefl, ih]
      · right; right; simp [lexLtB, h]

instance : IsTotal RawRow rowLe :=
  ⟨fun a b => by
    unfold rowLe
    rcases lexLtB_trichotomy (rowKey a).1 (rowKey b).1 with h | h | h
    · exact .inl (.inl h)
    · rcases Nat.le_total (rowKey a).2 (rowKey b).2 with hd | hd
      · exact .inl (.inr ⟨h, hd⟩)
      · exact .inr (.inr ⟨h.symm, hd⟩)
    · exact .inr (.inl h)⟩

instance : IsTrans RawRow rowLe :=
  ⟨fun a b c hab hbc => by
    unfold rowLe at hab hbc ⊢
    rcases hab with h1 | ⟨h1, d1⟩
    · rcases hbc with h2 | ⟨h2, _⟩
      · exact .inl (lexLtB_trans _ _ _ h1 h2)
      · exact .inl (h2 ▸ h1)
    · rcases hbc with h2 | ⟨h2, d2⟩
      · exact .inl (h1.symm ▸ h2)
      · exact .inr ⟨h1.trans h2, Nat.le_trans d1 d2⟩⟩

/-- C9: `process_raw_to_processed` fails with the not-found error when
the raw path does not reference an existing file; on success every output
row has a present `date` and `city` (rows with missing `date` or `city`
are dropped — a missing-date row never appears), the output is sorted by
(city ascending, date ascending), and it consists exactly of the
indicator-extended kept rows. -/
theorem process_clean_sort_notfound (columns : List String) (rows : List RawRow)
    (fileExists : Bool) :
    (fileExists = false →
      process_raw_to_processed fileExists columns rows = .error .notFound) ∧
    ∀ out, process_raw_to_processed fileExists columns rows = .ok out →
      (∀ o ∈ out, o.date.isSome = true ∧ o.city.isSome = true) ∧
      List.Sorted procRowLe out ∧
      List.Perm out
        ((rows.filter (fun r => r.date.isSome && r.city.isSome)).map
          add_climate_indicators_row) := by
  constructor
  · intro h; subst h; rfl
  · intro out hout
    cases fileExists with
    | false =>
        rw [show process_raw_to_processed false columns rows = .error .notFound
          from rfl] at hout
        cases hout
    | true =>
        cases hv : validate_raw_schema columns with
        | error m =>
            have hpe : process_raw_to_processed true columns rows =
                .error (.schemaError m) := by
              unfold process_raw_to_processed
              simp [hv]
            rw [hpe] at hout
            cases hout
        | ok u =>
            cases u
            have hpok : process_raw_to_processed true columns rows =
                .ok (add_climate_indicators (sort_values_city_date
                  (rows.filter (fun r => r.date.isSome && r.city.isSome)))) := by
              unfold process_raw_to_processed
              simp [hv]
            rw [hpok] at hout
            obtain rfl := Except.ok.inj hout
            have hsortperm : List.Perm
                (sort_values_city_date
                  (rows.filter (fun r => r.date.isSome && r.city.isSome)))
                (rows.filter (fun r => r.date.isSome && r.city.isSome)) :=
              List.perm_insertionSort rowLe _
            refine ⟨?_, ?_, ?_⟩
            · intro o ho
              obtain ⟨r, hr, rfl⟩ := List.mem_map.1 ho
              have hrc : r ∈ rows.filter (fun r => r.date.isSome && r.city.isSome) :=
                hsortperm.subset hr
              obtain ⟨-, hb⟩ := List.mem_filter.1 hrc
              simp only [Bool.and_eq_true] at hb
              exact ⟨hb.1, hb.2⟩
            · exact List.Pairwise.map _ (fun a b h => h)
                (List.sorted_insertionSort rowLe _)
            · exact hsortperm.map add_climate_indicators_row

/-- The full raw header. -/
def columnsW : List String :=
  ["date", "t_min", "t_max", "precipitation", "wind_max", "city"]

/-- Three raw rows, one with a missing date, cities out of order. -/
def rowsW : List RawRow :=
  [⟨some 5, .na, .na, .na, .na, some "Nice"⟩,
   ⟨none, .na, .na, .na, .na, some "Gap"⟩,
   ⟨some 3, .na, .na, .na, .na, some "Gap"⟩]

/-- The processed rows for `rowsW`: the missing-date row dropped, Gap
before Nice. -/
def outW : List ProcRow :=
  [⟨some 3, .na, .na, .na, .na, some "Gap", .na, false, false, false⟩,
   ⟨some 5, .na, .na, .na, .na, some "Nice", .na, false, false, false⟩]

/-- Witness for C9: the missing file and the three-row dataset. -/
theorem process_clean_sort_notfound_witness :
    process_raw_to_processed false columnsW rowsW = .error .notFound ∧
    ((∀ o ∈ outW, o.date.isSome = true ∧ o.city.isSome = true) ∧
     List.Sorted procRowLe outW ∧
     List.Perm outW
       ((rowsW.filter (fun r => r.date.isSome && r.city.isSome)).map
         add_climate_indicators_row)) :=
  ⟨(process_clean_sort_notfound columnsW rowsW false).1 rfl,
   (process_clean_sort_notfound columnsW rowsW true).2 outW (by decide)⟩

end WeatherImpact
